import Mathlib

/-!
Shallow embedding of the message handlers of `bot.py` (a Telegram
background-removal bot).  Pure data is modelled directly; every external
effect (Telegram sends and edits, the photo download, the remove.bg HTTP
call) is modelled by an oracle environment `Env` fixing the outcome of each
effectful operation, and each handler is a function from the oracle and the
per-user state to a record carrying the final state, the ordered trace of
observable events, and whether an exception escaped the handler.
-/

namespace BgBot

/-- Per-user mutable state: `context.user_data` restricted to the single key
`waiting_for_image` the bot uses.  `none` models an absent key, matching the
code, which distinguishes a missing key (`.get` returns `None`) from a key
stored as `False` or `True` and tests `is True`. -/
structure UserData where
  waiting_for_image : Option Bool
  deriving DecidableEq, Repr

/-- One entry of the `errors` array of a parsed remove.bg JSON error body
(`bot.py` lines 203-207); the fields model key presence in the dict. -/
structure ErrObj where
  title : Option String
  detail : Option String
  deriving DecidableEq, Repr

/-- An HTTP response from the remove.bg API as the handler observes it.
`content` is the raw body bytes (`response.content`), `text` the decoded
textual view of the same body (both `response.text` and
`response.content.decode` are library decodings of the body, modelled by
this one field), `contentType` is `headers.get("Content-Type")` (absent key
modelled as `none`), and `jsonErrors` is the result of `response.json()`
followed by `.get("errors", [])`: `none` when the body is not JSON (the
`ValueError` branch), `some l` when it parses with `errors` list `l`. -/
structure Resp where
  statusCode : Nat
  contentType : Option String
  content : List Nat
  text : String
  jsonErrors : Option (List ErrObj)
  deriving DecidableEq, Repr

/-- Outcome of the `requests.post` call to the remove.bg API: a response, or
one of the exception classes the handler catches (`Timeout`, a non-timeout
`RequestException`, or any other exception). -/
inductive ApiResult where
  | ok (r : Resp)
  | timeout
  | connError
  | otherExc
  deriving DecidableEq, Repr

/-- Oracle environment: fixes the outcome of every effectful operation one
run of `handle_photo` may perform.  `stepEditOk i` says whether the edit of
the fake-progress step `i` succeeds; the three stage edits (before the
download, before the API call, after it) and the initial reply, the apology
reply, the download, and the final document send each get their own flag. -/
structure Env where
  initReplyOk : Bool
  apologyOk : Bool
  stepEditOk : Nat → Bool
  editDownloadOk : Bool
  editApiOk : Bool
  editDoneOk : Bool
  fetchOk : Bool
  api : ApiResult
  sendDocOk : Bool

/-- Observable events of one handler run, one constructor per effect site of
the source.  Successful progress-message operations and the two external
calls are recorded; the terminal user-visible messages carry a `viaEdit`
flag (the source sends them through `progress_msg.edit_text` when the
progress message is still usable, else `message.reply_text`) and, where the
text is computed, the text itself. -/
inductive Event where
  | initProgressMsg : Event
  | stepEditMsg (i : Nat) : Event
  | downloadEditMsg : Event
  | apiEditMsg : Event
  | doneEditMsg : Event
  | getFileCall : Event
  | apiPostCall : Event
  | sendDocumentMsg (filename : String) (doc : List Nat) : Event
  | unexpectedContentMsg (viaEdit : Bool) (text : String) : Event
  | apiErrorMsg (viaEdit : Bool) (text : String) : Event
  | timeoutMsg (viaEdit : Bool) : Event
  | connErrorMsg (viaEdit : Bool) : Event
  | genericErrorMsg (viaEdit : Bool) : Event
  | apologyMsg : Event
  | notArmedPromptMsg : Event
  | startReplyMsg : Event
  | helpReplyMsg : Event
  | armPromptMsg : Event
  deriving DecidableEq, Repr

/-- Result of one handler run: final per-user state, the ordered event
trace, and whether an exception escaped the handler. -/
structure HandleResult where
  userData : UserData
  events : List Event
  raised : Bool
  deriving DecidableEq, Repr

/-- Button label constant from the source. -/
def BTN_REMOVE_BACKGROUND : String := "🖼️ Remove Background"

/-- Literal text of the timeout message (`bot.py` line 217). -/
def timeoutText : String :=
  "The request to the background removal service timed out. Please try again."

/-- Literal text of the connection-error message (`bot.py` line 221). -/
def connErrorText : String :=
  "Could not connect to the background removal service. Please check your internet or try again later."

/-- Literal text of the generic internal-error message (`bot.py` line 225). -/
def genericErrorText : String :=
  "An unexpected error occurred while processing your image. Please try again."

/-- Literal text of the apology sent when the initial progress message could
not be sent (`bot.py` line 93). -/
def apologyText : String :=
  "Sorry, I couldn\x27t send the initial progress message. Please try again."

/-- Literal text of the rejection prompt for an image arriving while not
armed (`bot.py` lines 232-235). -/
def notArmedText : String :=
  "Please tap the \x27" ++ BTN_REMOVE_BACKGROUND ++ "\x27 button first before sending an image."

/-- Does the character-list `pat` occur at the head of `l`?  Helper for the
Python substring test. -/
def leadsWith : List Char → List Char → Bool
  | [], _ => true
  | _ :: _, [] => false
  | p :: ps, c :: cs => p == c && leadsWith ps cs

/-- Does the character-list `pat` occur anywhere inside `l`? -/
def subAt : List Char → List Char → Bool
  | pat, [] => leadsWith pat []
  | pat, c :: cs => leadsWith pat (c :: cs) || subAt pat cs

/-- Python's `pat in s` substring test on strings. -/
def strContains (s pat : String) : Bool := subAt pat.toList s.toList

/-- Python's `s[:n]` character-truncation, rendered on the character list. -/
def strTake (s : String) (n : Nat) : String := ⟨s.data.take n⟩

/-- The lowered Content-Type header of a response:
`response.headers.get("Content-Type", "").lower()` (`bot.py` line 165),
rendered character by character. -/
def respCT (r : Resp) : String := ⟨(r.contentType.getD "").data.map Char.toLower⟩

/-- `content_type_header.split("/")[-1]` (`bot.py` line 170): the characters
after the last slash (the whole string when no slash occurs), exactly the
last element of Python's `split("/")`. -/
def extOf (ct : String) : String :=
  ⟨ct.data.foldl (fun acc c => if c == '/' then [] else acc ++ [c]) []⟩

/-- The user-visible text built in the `HTTPError` branch
(`bot.py` lines 199-211). -/
def apiErrorText (r : Resp) : String :=
  "API Error (" ++ toString r.statusCode ++ "): " ++
    match r.jsonErrors with
    | none => strTake r.text 200
    | some [] => strTake r.text 200
    | some (e0 :: _) =>
      match e0.title with
      | none => strTake r.text 200
      | some t => t ++ (match e0.detail with
        | none => ""
        | some d => " - " ++ d)

/-- The user-visible text built when a 200-class response is not an image
(`bot.py` lines 173-176); the body is decoded and truncated to 500
characters. -/
def unexpectedText (r : Resp) : String :=
  "Sorry, remove.bg returned an unexpected response. It might be an error: " ++ strTake r.text 500

/-- The fake-progress steps list of the source (`bot.py` lines 98-107); the
delay is kept in tenths of a second. -/
def steps : List (String × Nat) :=
  [ ("🟩⬜️⬜️⬜️⬜️⬜️⬜️⬜️⬜️ 5%", 5),
    ("🟩🟩⬜️⬜️⬜️⬜️⬜️⬜️⬜️ 15%", 7),
    ("🟩🟩🟩⬜️⬜️⬜️⬜️⬜️⬜️ 25%", 7),
    ("🟩🟩🟩🟩⬜️⬜️⬜️⬜️⬜️ 40%", 7),
    ("🟩🟩🟩🟩🟩⬜️⬜️⬜️⬜️ 55%", 7),
    ("🟩🟩🟩🟩🟩🟩⬜️⬜️⬜️ 70%", 7),
    ("🟩🟩🟩🟩🟩🟩🟩⬜️⬜️ 85%", 7),
    ("🟩🟩🟩🟩🟩🟩🟩🟩🟩⬜️ 95%", 5) ]

/-- Events emitted by the fake-progress loop (`bot.py` lines 109-120),
iterating with step index `n`: each successful edit emits its event and the
loop continues; a failed edit emits nothing, and the loop breaks (the
source logs, sets `progress_msg = None` and executes `break`). -/
def runStepsEv (edOk : Nat → Bool) : Nat → List (String × Nat) → List Event
  | _, [] => []
  | n, _ :: rest =>
    if edOk n then Event.stepEditMsg n :: runStepsEv edOk (n + 1) rest else []

/-- Whether `progress_msg` is still usable after the fake-progress loop:
`false` exactly when some edit failed (the source then sets it to `None`). -/
def runStepsAlive (edOk : Nat → Bool) : Nat → List (String × Nat) → Bool
  | _, [] => true
  | n, _ :: rest => if edOk n then runStepsAlive edOk (n + 1) rest else false

/-- Events of one guarded stage edit (`if progress_msg: try edit except:
progress_msg = None`, as at `bot.py` lines 129-134): the edit is attempted
only while the progress message is usable, and emits only on success. -/
def editEv (alive ok : Bool) (e : Event) : List Event :=
  if alive && ok then [e] else []

/-- Usability of the progress message after one guarded stage edit. -/
def editAlive (alive ok : Bool) : Bool := alive && ok

/-- Events of the fake-progress loop for a run under oracle `env`. -/
def stepEvents (env : Env) : List Event := runStepsEv env.stepEditOk 0 steps

/-- Progress-message usability after the fake-progress loop. -/
def aliveAfterSteps (env : Env) : Bool := runStepsAlive env.stepEditOk 0 steps

/-- Events of the pre-download stage edit (`bot.py` lines 129-134). -/
def dlEditEvents (env : Env) : List Event :=
  editEv (aliveAfterSteps env) env.editDownloadOk Event.downloadEditMsg

/-- Progress-message usability after the pre-download stage edit. -/
def aliveAfterDl (env : Env) : Bool := editAlive (aliveAfterSteps env) env.editDownloadOk

/-- Events of the pre-API-call stage edit (`bot.py` lines 145-150). -/
def apiEditEvents (env : Env) : List Event :=
  editEv (aliveAfterDl env) env.editApiOk Event.apiEditMsg

/-- Progress-message usability after the pre-API-call stage edit. -/
def aliveAfterApiEdit (env : Env) : Bool := editAlive (aliveAfterDl env) env.editApiOk

/-- The events between the initial progress reply and the terminal message
of a run whose download fails: fake-progress edits, pre-download edit, the
download attempt. -/
def midFetchFail (env : Env) : List Event :=
  stepEvents env ++ dlEditEvents env ++ [Event.getFileCall]

/-- The events between the initial progress reply and the terminal message
of every run that reaches the remove.bg call: fake-progress edits,
pre-download edit, download, pre-API edit, API post. -/
def midBase (env : Env) : List Event :=
  stepEvents env ++ dlEditEvents env ++ [Event.getFileCall] ++ apiEditEvents env ++
    [Event.apiPostCall]

/-- The events between the initial progress reply and the terminal event of
a successful processing run: `midBase` followed by the completion stage edit
(`bot.py` lines 184-190). -/
def midSuccess (env : Env) : List Event :=
  midBase env ++ editEv (aliveAfterApiEdit env) env.editDoneOk Event.doneEditMsg

/-- Terminal part of a successful processing run (`bot.py` lines 184-197):
the completion stage edit, then `send_document`; a failure of
`send_document` is caught by the generic `except` (line 223) and yields the
generic error message instead. -/
def finishSuccess (env : Env) (r : Resp) (filename : String) : HandleResult :=
  { userData := ⟨some false⟩,
    events := Event.initProgressMsg :: (midSuccess env ++
      [if env.sendDocOk then Event.sendDocumentMsg filename r.content
       else Event.genericErrorMsg (editAlive (aliveAfterApiEdit env) env.editDoneOk)]),
    raised := false }

/-- The armed branch of `handle_photo` (`bot.py` lines 80-229).  The
`finally` clause (lines 226-228) sets `waiting_for_image` to `False` on
every path through the `try`; the only path leaving the flag `True` is an
initial-reply failure whose apology reply also raises (lines 86-95 run
before the `try`/`finally`).  `raise_for_status` (line 161) raises
`HTTPError` exactly for status codes 400-599. -/
def processArmed (env : Env) : HandleResult :=
  if env.initReplyOk = false then
    if env.apologyOk then
      { userData := ⟨some false⟩, events := [Event.apologyMsg], raised := false }
    else
      { userData := ⟨some true⟩, events := [], raised := true }
  else
    if env.fetchOk = false then
      { userData := ⟨some false⟩,
        events := Event.initProgressMsg ::
          (midFetchFail env ++ [Event.genericErrorMsg (aliveAfterDl env)]),
        raised := false }
    else
      match env.api with
      | ApiResult.timeout =>
        { userData := ⟨some false⟩,
          events := Event.initProgressMsg ::
            (midBase env ++ [Event.timeoutMsg (aliveAfterApiEdit env)]),
          raised := false }
      | ApiResult.connError =>
        { userData := ⟨some false⟩,
          events := Event.initProgressMsg ::
            (midBase env ++ [Event.connErrorMsg (aliveAfterApiEdit env)]),
          raised := false }
      | ApiResult.otherExc =>
        { userData := ⟨some false⟩,
          events := Event.initProgressMsg ::
            (midBase env ++ [Event.genericErrorMsg (aliveAfterApiEdit env)]),
          raised := false }
      | ApiResult.ok r =>
        if 400 ≤ r.statusCode ∧ r.statusCode < 600 then
          { userData := ⟨some false⟩,
            events := Event.initProgressMsg ::
              (midBase env ++ [Event.apiErrorMsg (aliveAfterApiEdit env) (apiErrorText r)]),
            raised := false }
        else
          if strContains (respCT r) "image/png" = false then
            if strContains (respCT r) "image/" then
              finishSuccess env r ("bg_removed_output." ++ extOf (respCT r))
            else
              { userData := ⟨some false⟩,
                events := Event.initProgressMsg ::
                  (midBase env ++
                    [Event.unexpectedContentMsg (aliveAfterApiEdit env) (unexpectedText r)]),
                raised := false }
          else
            finishSuccess env r "bg_removed.png"

/-- The `handle_photo` handler (`bot.py` lines 76-235): the armed branch
when `user_data.get("waiting_for_image") is True`, otherwise the rejection
prompt with no state change. -/
def handle_photo (env : Env) (ud : UserData) : HandleResult :=
  if ud.waiting_for_image = some true then processArmed env
  else { userData := ud, events := [Event.notArmedPromptMsg], raised := false }

/-- The `/start` handler (`bot.py` lines 47-54): pops the
`waiting_for_image` key, then replies. -/
def start (_ud : UserData) : UserData × List Event :=
  (⟨none⟩, [Event.startReplyMsg])

/-- The `/help` handler (`bot.py` lines 56-66): pops the
`waiting_for_image` key, then replies. -/
def help_command (_ud : UserData) : UserData × List Event :=
  (⟨none⟩, [Event.helpReplyMsg])

/-- The arming button handler (`bot.py` lines 68-74): sets the
`waiting_for_image` key to `True`, then replies. -/
def handle_remove_bg_button_press (_ud : UserData) : UserData × List Event :=
  (⟨some true⟩, [Event.armPromptMsg])

/-- Progress emissions of a trace: the initial progress reply and every
successful progress-message edit. -/
def isProgressEmission : Event → Bool
  | .initProgressMsg | .stepEditMsg _ | .downloadEditMsg | .apiEditMsg | .doneEditMsg => true
  | _ => false

/-- Terminal user-visible messages: the delivered document or exactly one of
the error/rejection/apology texts. -/
def isFinalMessage : Event → Bool
  | .sendDocumentMsg _ _ | .unexpectedContentMsg _ _ | .apiErrorMsg _ _
  | .timeoutMsg _ | .connErrorMsg _ | .genericErrorMsg _
  | .apologyMsg | .notArmedPromptMsg | .startReplyMsg | .helpReplyMsg => true
  | _ => false

/-- Events that may legitimately occur strictly between the initial progress
reply and the terminal message of an armed run. -/
def midOk : Event → Bool
  | .stepEditMsg _ | .downloadEditMsg | .apiEditMsg | .doneEditMsg
  | .getFileCall | .apiPostCall => true
  | _ => false

/-- `true` iff every terminal message in the trace is its very last event,
so nothing (in particular no progress emission) is observable after it. -/
def finalMessageLast : List Event → Bool
  | [] => true
  | e :: rest => if isFinalMessage e then rest.isEmpty else finalMessageLast rest

/-- Fake-progress-step edit events. -/
def isStepEditEvent : Event → Bool
  | .stepEditMsg _ => true
  | _ => false

/-- The initial progress reply event. -/
def isInitProgressEvent : Event → Bool
  | .initProgressMsg => true
  | _ => false

/-- API-error message events. -/
def isApiErrorEvent : Event → Bool
  | .apiErrorMsg _ _ => true
  | _ => false

/-- Connection-error message events. -/
def isConnErrorEvent : Event → Bool
  | .connErrorMsg _ => true
  | _ => false

/-- Timeout message events. -/
def isTimeoutEvent : Event → Bool
  | .timeoutMsg _ => true
  | _ => false

/-- Generic internal-error message events. -/
def isGenericErrorEvent : Event → Bool
  | .genericErrorMsg _ => true
  | _ => false

/-- Unexpected-content message events. -/
def isUnexpectedContentEvent : Event → Bool
  | .unexpectedContentMsg _ _ => true
  | _ => false

/-- Document-delivery events. -/
def isSendDocEvent : Event → Bool
  | .sendDocumentMsg _ _ => true
  | _ => false

/-- Any of the five error-message events. -/
def isErrorMessageEvent : Event → Bool
  | .unexpectedContentMsg _ _ | .apiErrorMsg _ _ | .timeoutMsg _
  | .connErrorMsg _ | .genericErrorMsg _ => true
  | _ => false

/-- The literal user-visible text carried by a message event, where the
source fixes it. -/
def msgText : Event → Option String
  | .timeoutMsg _ => some timeoutText
  | .connErrorMsg _ => some connErrorText
  | .genericErrorMsg _ => some genericErrorText
  | .apologyMsg => some apologyText
  | .notArmedPromptMsg => some notArmedText
  | .unexpectedContentMsg _ s => some s
  | .apiErrorMsg _ s => some s
  | _ => none

/-- String containment as a proposition: `t` occurs inside `s`. -/
def containsStr (s t : String) : Prop := ∃ a b, s = a ++ t ++ b

/-- A user state with the armed flag set, as after the arming button. -/
def ud0 : UserData := ⟨some true⟩

/-- A user state with the armed key absent, as after `/start`. -/
def udIdle : UserData := ⟨none⟩

/-- A 200 PNG response with a tiny body. -/
def respPng : Resp :=
  { statusCode := 200, contentType := some "image/png",
    content := [137, 80, 78, 71], text := "", jsonErrors := none }

/-- A 200 JPEG response: an image, but not the expected PNG. -/
def respJpeg : Resp :=
  { statusCode := 200, contentType := some "image/jpeg",
    content := [255, 216, 255], text := "", jsonErrors := none }

/-- A 200 response whose body is plain text, not an image. -/
def respPlain : Resp :=
  { statusCode := 200, contentType := some "text/plain",
    content := [101, 114, 114], text := "rate limit exceeded", jsonErrors := none }

/-- A 300-status response with a textual body: not 2xx, yet not in the
400-599 range that `raise_for_status` turns into `HTTPError`. -/
def resp300 : Resp :=
  { statusCode := 300, contentType := some "text/plain",
    content := [], text := "redirect", jsonErrors := none }

/-- A 400-status response whose JSON body carries a structured error. -/
def resp400 : Resp :=
  { statusCode := 400, contentType := some "application/json",
    content := [], text := "credits error",
    jsonErrors := some [{ title := some "Insufficient credits",
                          detail := some "no credits left" }] }

/-- The all-good oracle: every effect succeeds and the API returns
`respPng`. -/
def envOk : Env :=
  { initReplyOk := true, apologyOk := true, stepEditOk := fun _ => true,
    editDownloadOk := true, editApiOk := true, editDoneOk := true,
    fetchOk := true, api := ApiResult.ok respPng, sendDocOk := true }

/-- Oracle in which exactly the first fake-progress edit fails. -/
def cenv3 : Env := { envOk with stepEditOk := fun k => k != 0 }

/-- Oracle in which the API returns the non-image 200 response. -/
def env4 : Env := { envOk with api := ApiResult.ok respPlain }

/-- Oracle in which the API returns the 300-status response. -/
def cenv5 : Env := { envOk with api := ApiResult.ok resp300 }

/-- Oracle in which the API returns the structured 400 error. -/
def env5 : Env := { envOk with api := ApiResult.ok resp400 }

/-- Oracle in which the API call times out. -/
def env6 : Env := { envOk with api := ApiResult.timeout }

/-- Oracle in which the API returns the JPEG response. -/
def env8 : Env := { envOk with api := ApiResult.ok respJpeg }

/-- Oracle in which the initial progress reply fails to send. -/
def env9 : Env := { envOk with initReplyOk := false }

/-! ## Helper lemmas about the embedding -/

theorem leadsWith_append (p q l : List Char) (h : leadsWith (p ++ q) l = true) :
    leadsWith p l = true := by
  induction p generalizing l with
  | nil => rfl
  | cons a ps ih =>
    cases l with
    | nil => simp [leadsWith] at h
    | cons c cs =>
      simp only [List.cons_append, leadsWith, Bool.and_eq_true] at h ⊢
      exact ⟨h.1, ih cs h.2⟩

theorem subAt_append (p q l : List Char) (h : subAt (p ++ q) l = true) :
    subAt p l = true := by
  induction l with
  | nil =>
    cases p with
    | nil => rfl
    | cons a ps => simp [subAt, leadsWith] at h
  | cons c cs ih =>
    simp only [subAt, Bool.or_eq_true] at h ⊢
    rcases h with h | h
    · exact Or.inl (leadsWith_append p q _ h)
    · exact Or.inr (ih h)

theorem strContains_png (s : String) (h : strContains s "image/" = false) :
    strContains s "image/png" = false := by
  cases hpng : strContains s "image/png" with
  | false => rfl
  | true =>
    exfalso
    have himg : strContains s "image/" = true := by
      have hsplit : "image/png".toList = "image/".toList ++ "png".toList := by decide
      unfold strContains at hpng ⊢
      rw [hsplit] at hpng
      exact subAt_append _ _ _ hpng
    rw [himg] at h
    simp at h

theorem runStepsEv_shape (edOk : Nat → Bool) (n : Nat) (l : List (String × Nat)) :
    ∀ e ∈ runStepsEv edOk n l, ∃ j, e = Event.stepEditMsg j := by
  induction l generalizing n with
  | nil => intro e he; simp [runStepsEv] at he
  | cons s t ih =>
    intro e he
    by_cases hn : edOk n = true
    · simp only [runStepsEv, hn, if_true, List.mem_cons] at he
      rcases he with he | he
      · exact ⟨n, he⟩
      · exact ih (n + 1) e he
    · simp [runStepsEv, hn] at he

theorem runStepsEv_ok (edOk : Nat → Bool) (n : Nat) (l : List (String × Nat)) (j : Nat)
    (h : Event.stepEditMsg j ∈ runStepsEv edOk n l) :
    ∀ k, n ≤ k → k ≤ j → edOk k = true := by
  induction l generalizing n with
  | nil => simp [runStepsEv] at h
  | cons s t ih =>
    by_cases hn : edOk n = true
    · simp only [runStepsEv, hn, if_true, List.mem_cons] at h
      rcases h with h | h
      · intro k hk1 hk2
        have hjn : j = n := by simpa using h
        have : k = n := by omega
        rw [this]
        exact hn
      · intro k hk1 hk2
        rcases Nat.eq_or_lt_of_le hk1 with heq | hlt
        · rw [← heq]; exact hn
        · exact ih (n + 1) h k hlt hk2
    · simp [runStepsEv, hn] at h

theorem editEv_sub (a o : Bool) (x e : Event) (h : e ∈ editEv a o x) : e = x := by
  unfold editEv at h
  by_cases hc : (a && o) = true
  · simp only [hc, if_true, List.mem_singleton] at h
    exact h
  · simp [hc] at h

theorem midOk_props (e : Event) (h : midOk e = true) :
    isFinalMessage e = false ∧ isInitProgressEvent e = false ∧ isSendDocEvent e = false ∧
    isApiErrorEvent e = false ∧ isConnErrorEvent e = false ∧ isGenericErrorEvent e = false ∧
    isUnexpectedContentEvent e = false ∧ isErrorMessageEvent e = false ∧
    isTimeoutEvent e = false := by
  cases e <;> simp_all [midOk, isFinalMessage, isInitProgressEvent, isSendDocEvent,
    isApiErrorEvent, isConnErrorEvent, isGenericErrorEvent, isUnexpectedContentEvent,
    isErrorMessageEvent, isTimeoutEvent]

theorem final_props (f : Event) (h : isFinalMessage f = true) :
    isStepEditEvent f = false ∧ isInitProgressEvent f = false := by
  cases f <;> simp_all [isFinalMessage, isStepEditEvent, isInitProgressEvent]
theorem stepEvents_shape (env : Env) :
    ∀ e ∈ stepEvents env, ∃ j, e = Event.stepEditMsg j :=
  runStepsEv_shape env.stepEditOk 0 steps

theorem midFetchFail_midOk (env : Env) : ∀ e ∈ midFetchFail env, midOk e = true := by
  intro e he
  unfold midFetchFail at he
  rcases List.mem_append.1 he with he | he
  · rcases List.mem_append.1 he with he | he
    · obtain ⟨j, rfl⟩ := stepEvents_shape env e he
      rfl
    · rw [editEv_sub _ _ _ _ he]
      rfl
  · rw [List.mem_singleton.1 he]
    rfl

theorem midBase_eq (env : Env) :
    midBase env = midFetchFail env ++ apiEditEvents env ++ [Event.apiPostCall] := rfl

theorem midBase_midOk (env : Env) : ∀ e ∈ midBase env, midOk e = true := by
  intro e he
  rw [midBase_eq] at he
  rcases List.mem_append.1 he with he | he
  · rcases List.mem_append.1 he with he | he
    · exact midFetchFail_midOk env e he
    · rw [editEv_sub _ _ _ _ he]
      rfl
  · rw [List.mem_singleton.1 he]
    rfl

theorem midSuccess_midOk (env : Env) : ∀ e ∈ midSuccess env, midOk e = true := by
  intro e he
  unfold midSuccess at he
  rcases List.mem_append.1 he with he | he
  · exact midBase_midOk env e he
  · rw [editEv_sub _ _ _ _ he]
    rfl

theorem midFetchFail_step (env : Env) (j : Nat)
    (h : Event.stepEditMsg j ∈ midFetchFail env) : Event.stepEditMsg j ∈ stepEvents env := by
  unfold midFetchFail at h
  rcases List.mem_append.1 h with h | h
  · rcases List.mem_append.1 h with h | h
    · exact h
    · have := editEv_sub _ _ _ _ h
      simp at this
  · simp at h

theorem midBase_step (env : Env) (j : Nat)
    (h : Event.stepEditMsg j ∈ midBase env) : Event.stepEditMsg j ∈ stepEvents env := by
  rw [midBase_eq] at h
  rcases List.mem_append.1 h with h | h
  · rcases List.mem_append.1 h with h | h
    · exact midFetchFail_step env j h
    · have := editEv_sub _ _ _ _ h
      simp at this
  · simp at h

theorem midSuccess_step (env : Env) (j : Nat)
    (h : Event.stepEditMsg j ∈ midSuccess env) : Event.stepEditMsg j ∈ stepEvents env := by
  unfold midSuccess at h
  rcases List.mem_append.1 h with h | h
  · exact midBase_step env j h
  · have := editEv_sub _ _ _ _ h
    simp at this

theorem fml_append (mid : List Event) (f : Event)
    (h : ∀ e ∈ mid, isFinalMessage e = false) :
    finalMessageLast (mid ++ [f]) = true := by
  induction mid with
  | nil => cases hf : isFinalMessage f <;> simp [finalMessageLast, hf]
  | cons e t ih =>
    have he : isFinalMessage e = false := h e (List.mem_cons_self e t)
    rw [List.cons_append]
    simp only [finalMessageLast, he, Bool.false_eq_true, if_false]
    exact ih fun x hx => h x (List.mem_cons_of_mem e hx)

theorem countP_zero {l : List Event} {p : Event → Bool}
    (h : ∀ e ∈ l, p e = false) : l.countP p = 0 :=
  List.countP_eq_zero.mpr fun a ha => by simp [h a ha]

theorem goodTail (mid : List Event) (f : Event)
    (hm : ∀ e ∈ mid, midOk e = true) (hf : isFinalMessage f = true) :
    finalMessageLast (Event.initProgressMsg :: (mid ++ [f])) = true ∧
    (Event.initProgressMsg :: (mid ++ [f])).countP isFinalMessage ≤ 1 ∧
    (Event.initProgressMsg :: (mid ++ [f])).countP isInitProgressEvent ≤ 1 := by
  have hmidfin : ∀ e ∈ mid, isFinalMessage e = false := fun e he => (midOk_props e (hm e he)).1
  have hmidinit : ∀ e ∈ mid, isInitProgressEvent e = false :=
    fun e he => (midOk_props e (hm e he)).2.1
  refine ⟨?_, ?_, ?_⟩
  · simp only [finalMessageLast, isFinalMessage, Bool.false_eq_true, if_false]
    exact fml_append mid f hmidfin
  · have h0 : mid.countP isFinalMessage = 0 := countP_zero hmidfin
    have hinit : isFinalMessage Event.initProgressMsg = false := rfl
    rw [List.countP_cons, List.countP_append, h0, List.countP_cons, List.countP_nil, hinit, hf]
    simp
  · have h0 : mid.countP isInitProgressEvent = 0 := countP_zero hmidinit
    have hfi : isInitProgressEvent f = false := (final_props f hf).2
    have hinit : isInitProgressEvent Event.initProgressMsg = true := rfl
    rw [List.countP_cons, List.countP_append, h0, List.countP_cons, List.countP_nil, hinit, hfi]
    simp
theorem bool_eq_false {b : Bool} (h : ¬ b = true) : b = false := by
  cases b
  · rfl
  · exact absurd rfl h

theorem handle_photo_armed (env : Env) (ud : UserData)
    (h : ud.waiting_for_image = some true) : handle_photo env ud = processArmed env := by
  simp [handle_photo, h]

theorem handle_photo_unarmed (env : Env) (ud : UserData)
    (h : ud.waiting_for_image ≠ some true) :
    handle_photo env ud =
      { userData := ud, events := [Event.notArmedPromptMsg], raised := false } := by
  simp [handle_photo, h]

theorem processArmed_initFail (env : Env) (h : env.initReplyOk = false)
    (ha : env.apologyOk = true) :
    processArmed env =
      { userData := ⟨some false⟩, events := [Event.apologyMsg], raised := false } := by
  simp [processArmed, h, ha]

theorem processArmed_initFail_raise (env : Env) (h : env.initReplyOk = false)
    (ha : env.apologyOk = false) :
    processArmed env = { userData := ⟨some true⟩, events := [], raised := true } := by
  simp [processArmed, h, ha]

theorem processArmed_fetchFail (env : Env) (h : env.initReplyOk = true)
    (hf : env.fetchOk = false) :
    processArmed env =
      { userData := ⟨some false⟩,
        events := Event.initProgressMsg ::
          (midFetchFail env ++ [Event.genericErrorMsg (aliveAfterDl env)]),
        raised := false } := by
  simp [processArmed, h, hf]

theorem processArmed_timeout (env : Env) (h : env.initReplyOk = true)
    (hf : env.fetchOk = true) (hapi : env.api = ApiResult.timeout) :
    processArmed env =
      { userData := ⟨some false⟩,
        events := Event.initProgressMsg ::
          (midBase env ++ [Event.timeoutMsg (aliveAfterApiEdit env)]),
        raised := false } := by
  simp [processArmed, h, hf, hapi]

theorem processArmed_connError (env : Env) (h : env.initReplyOk = true)
    (hf : env.fetchOk = true) (hapi : env.api = ApiResult.connError) :
    processArmed env =
      { userData := ⟨some false⟩,
        events := Event.initProgressMsg ::
          (midBase env ++ [Event.connErrorMsg (aliveAfterApiEdit env)]),
        raised := false } := by
  simp [processArmed, h, hf, hapi]

theorem processArmed_otherExc (env : Env) (h : env.initReplyOk = true)
    (hf : env.fetchOk = true) (hapi : env.api = ApiResult.otherExc) :
    processArmed env =
      { userData := ⟨some false⟩,
        events := Event.initProgressMsg ::
          (midBase env ++ [Event.genericErrorMsg (aliveAfterApiEdit env)]),
        raised := false } := by
  simp [processArmed, h, hf, hapi]

theorem processArmed_apiError (env : Env) (r : Resp) (h : env.initReplyOk = true)
    (hf : env.fetchOk = true) (hapi : env.api = ApiResult.ok r)
    (hs : 400 ≤ r.statusCode ∧ r.statusCode < 600) :
    processArmed env =
      { userData := ⟨some false⟩,
        events := Event.initProgressMsg ::
          (midBase env ++ [Event.apiErrorMsg (aliveAfterApiEdit env) (apiErrorText r)]),
        raised := false } := by
  simp [processArmed, h, hf, hapi, hs]

theorem processArmed_unexpected (env : Env) (r : Resp) (h : env.initReplyOk = true)
    (hf : env.fetchOk = true) (hapi : env.api = ApiResult.ok r)
    (hs : ¬ (400 ≤ r.statusCode ∧ r.statusCode < 600))
    (himg : strContains (respCT r) "image/" = false) :
    processArmed env =
      { userData := ⟨some false⟩,
        events := Event.initProgressMsg ::
          (midBase env ++
            [Event.unexpectedContentMsg (aliveAfterApiEdit env) (unexpectedText r)]),
        raised := false } := by
  have hpng := strContains_png _ himg
  simp [processArmed, h, hf, hapi, hs, hpng, himg]

theorem processArmed_pngSuccess (env : Env) (r : Resp) (h : env.initReplyOk = true)
    (hf : env.fetchOk = true) (hapi : env.api = ApiResult.ok r)
    (hs : ¬ (400 ≤ r.statusCode ∧ r.statusCode < 600))
    (hpng : strContains (respCT r) "image/png" = true) :
    processArmed env = finishSuccess env r "bg_removed.png" := by
  simp [processArmed, h, hf, hapi, hs, hpng]

theorem processArmed_altSuccess (env : Env) (r : Resp) (h : env.initReplyOk = true)
    (hf : env.fetchOk = true) (hapi : env.api = ApiResult.ok r)
    (hs : ¬ (400 ≤ r.statusCode ∧ r.statusCode < 600))
    (hpng : strContains (respCT r) "image/png" = false)
    (himg : strContains (respCT r) "image/" = true) :
    processArmed env = finishSuccess env r ("bg_removed_output." ++ extOf (respCT r)) := by
  simp [processArmed, h, hf, hapi, hs, hpng, himg]

theorem finishSuccess_final (env : Env) (r : Resp) (filename : String) :
    isFinalMessage
      (if env.sendDocOk then Event.sendDocumentMsg filename r.content
       else Event.genericErrorMsg (editAlive (aliveAfterApiEdit env) env.editDoneOk)) = true ∧
    isStepEditEvent
      (if env.sendDocOk then Event.sendDocumentMsg filename r.content
       else Event.genericErrorMsg (editAlive (aliveAfterApiEdit env) env.editDoneOk)) = false := by
  cases hsd : env.sendDocOk <;> simp [hsd, isFinalMessage, isStepEditEvent]

theorem armedShape (env : Env) (h : env.initReplyOk = true) :
    ∃ mid f, (processArmed env).events = Event.initProgressMsg :: (mid ++ [f]) ∧
      (∀ e ∈ mid, midOk e = true) ∧
      (∀ j, Event.stepEditMsg j ∈ mid → Event.stepEditMsg j ∈ stepEvents env) ∧
      isFinalMessage f = true ∧ isStepEditEvent f = false ∧
      (processArmed env).userData = ⟨some false⟩ ∧ (processArmed env).raised = false := by
  by_cases hfk : env.fetchOk = true
  · cases hapi : env.api with
    | ok r =>
      by_cases hs : 400 ≤ r.statusCode ∧ r.statusCode < 600
      · rw [processArmed_apiError env r h hfk hapi hs]
        exact ⟨midBase env, _, rfl, midBase_midOk env, fun j => midBase_step env j,
          rfl, rfl, rfl, rfl⟩
      · by_cases hpng : strContains (respCT r) "image/png" = true
        · rw [processArmed_pngSuccess env r h hfk hapi hs hpng]
          exact ⟨midSuccess env, _, rfl, midSuccess_midOk env, fun j => midSuccess_step env j,
            (finishSuccess_final env r _).1, (finishSuccess_final env r _).2, rfl, rfl⟩
        · by_cases himg : strContains (respCT r) "image/" = true
          · rw [processArmed_altSuccess env r h hfk hapi hs (bool_eq_false hpng) himg]
            exact ⟨midSuccess env, _, rfl, midSuccess_midOk env,
              fun j => midSuccess_step env j,
              (finishSuccess_final env r _).1, (finishSuccess_final env r _).2, rfl, rfl⟩
          · rw [processArmed_unexpected env r h hfk hapi hs (bool_eq_false himg)]
            exact ⟨midBase env, _, rfl, midBase_midOk env, fun j => midBase_step env j,
              rfl, rfl, rfl, rfl⟩
    | timeout =>
      rw [processArmed_timeout env h hfk hapi]
      exact ⟨midBase env, _, rfl, midBase_midOk env, fun j => midBase_step env j,
        rfl, rfl, rfl, rfl⟩
    | connError =>
      rw [processArmed_connError env h hfk hapi]
      exact ⟨midBase env, _, rfl, midBase_midOk env, fun j => midBase_step env j,
        rfl, rfl, rfl, rfl⟩
    | otherExc =>
      rw [processArmed_otherExc env h hfk hapi]
      exact ⟨midBase env, _, rfl, midBase_midOk env, fun j => midBase_step env j,
        rfl, rfl, rfl, rfl⟩
  · rw [processArmed_fetchFail env h (bool_eq_false hfk)]
    exact ⟨midFetchFail env, _, rfl, midFetchFail_midOk env, fun j => midFetchFail_step env j,
      rfl, rfl, rfl, rfl⟩
/-! ## Claim theorems -/

/-- C1: every `handle_photo` request that begins in the armed state ends
with `waiting_for_image = False`, whichever outcome branch is taken —
success, API error, timeout, transport error, unexpected non-image content,
or an unhandled exception escaping the fetch/process steps — because the
`finally` clause resets the flag on every path through the `try`, and the
early initial-reply-failure return resets it explicitly.  The hypothesis
excludes only the run in which the initial progress reply and the apology
reply both raise, a path that aborts before the fetch/process steps the
claim enumerates. -/
theorem armed_flag_cleared_on_completion (env : Env) (ud : UserData)
    (h1 : ud.waiting_for_image = some true)
    (h2 : env.initReplyOk = true ∨ env.apologyOk = true) :
    (handle_photo env ud).userData.waiting_for_image = some false := by
  rw [handle_photo_armed env ud h1]
  by_cases hi : env.initReplyOk = true
  · obtain ⟨mid, f, hev, hm, hstep, hffin, hfstep, hud, hraised⟩ := armedShape env hi
    rw [hud]
  · rcases h2 with h2 | h2
    · exact absurd h2 hi
    · rw [processArmed_initFail env (bool_eq_false hi) h2]

/-- C1 witness: the all-good oracle starting from the armed state. -/
theorem armed_flag_cleared_on_completion_witness :
    ud0.waiting_for_image = some true ∧
    (envOk.initReplyOk = true ∨ envOk.apologyOk = true) ∧
    (handle_photo envOk ud0).userData.waiting_for_image = some false :=
  ⟨rfl, Or.inl rfl, armed_flag_cleared_on_completion envOk ud0 rfl (Or.inl rfl)⟩

/-- C2: on every run of `handle_photo` (the handler is sequential, so at
most one progress-reporting activity exists at any time), every terminal
user-visible message is the very last event of the trace — hence no
progress emission is observable after the final message is sent — the trace
holds at most one terminal message, and the progress reporting is started
at most once per run. -/
theorem final_message_last_and_unique (env : Env) (ud : UserData) :
    finalMessageLast (handle_photo env ud).events = true ∧
    (handle_photo env ud).events.countP isFinalMessage ≤ 1 ∧
    (handle_photo env ud).events.countP isInitProgressEvent ≤ 1 := by
  by_cases h1 : ud.waiting_for_image = some true
  · rw [handle_photo_armed env ud h1]
    by_cases hi : env.initReplyOk = true
    · obtain ⟨mid, f, hev, hm, hstep, hffin, hfstep, hud, hraised⟩ := armedShape env hi
      rw [hev]
      exact goodTail mid f hm hffin
    · by_cases ha : env.apologyOk = true
      · rw [processArmed_initFail env (bool_eq_false hi) ha]
        refine ⟨rfl, ?_, ?_⟩ <;> decide
      · rw [processArmed_initFail_raise env (bool_eq_false hi) (bool_eq_false ha)]
        refine ⟨rfl, ?_, ?_⟩ <;> decide
  · rw [handle_photo_unarmed env ud h1]
    refine ⟨rfl, ?_, ?_⟩ <;>
      simp [List.countP_cons, List.countP_nil, isFinalMessage, isInitProgressEvent]

/-- C3 counterexample: with the oracle in which exactly the first
fake-progress edit is rejected by the transport, the reporter does not keep
emitting: editing step 1 would have succeeded (`stepEditOk 1 = true`), yet
no step-1 edit — indeed no step edit at all — appears in the trace, because
the source logs the failure, sets `progress_msg = None` and executes
`break` (`bot.py` lines 114-120). -/
theorem edit_failure_stops_loop_counterexample :
    cenv3.stepEditOk 0 = false ∧ cenv3.stepEditOk 1 = true ∧
    Event.stepEditMsg 1 ∉ (handle_photo cenv3 ud0).events ∧
    (handle_photo cenv3 ud0).events.countP isStepEditEvent = 0 := by decide

/-- C3 (amended): a failure to emit a status signal terminates the emission
loop rather than being skipped: if the edit of step `i` fails, then no step
`j ≥ i` is ever emitted in that run, whatever the transport would have
answered for the later steps. -/
theorem edit_failure_stops_emission_loop (env : Env) (ud : UserData) (i j : Nat)
    (hij : i ≤ j) (hfail : env.stepEditOk i = false) :
    Event.stepEditMsg j ∉ (handle_photo env ud).events := by
  intro hmem
  by_cases h1 : ud.waiting_for_image = some true
  · rw [handle_photo_armed env ud h1] at hmem
    by_cases hi : env.initReplyOk = true
    · obtain ⟨mid, f, hev, hm, hstep, hffin, hfstep, hud, hraised⟩ := armedShape env hi
      rw [hev] at hmem
      rcases List.mem_cons.1 hmem with hmem | hmem
      · exact absurd hmem (by simp)
      · rcases List.mem_append.1 hmem with hmem | hmem
        · have hse := hstep j hmem
          have hok := runStepsEv_ok env.stepEditOk 0 steps j hse i (Nat.zero_le i) hij
          rw [hfail] at hok
          simp at hok
        · have hf : Event.stepEditMsg j = f := List.mem_singleton.1 hmem
          rw [← hf] at hfstep
          simp [isStepEditEvent] at hfstep
    · by_cases ha : env.apologyOk = true
      · rw [processArmed_initFail env (bool_eq_false hi) ha] at hmem
        simp at hmem
      · rw [processArmed_initFail_raise env (bool_eq_false hi) (bool_eq_false ha)] at hmem
        simp at hmem
  · rw [handle_photo_unarmed env ud h1] at hmem
    simp at hmem

/-- C3 amended witness: the concrete failing-first-edit oracle at steps 0
and 1. -/
theorem edit_failure_stops_emission_loop_witness :
    (0 : Nat) ≤ 1 ∧ cenv3.stepEditOk 0 = false ∧
    Event.stepEditMsg 1 ∉ (handle_photo cenv3 ud0).events :=
  ⟨Nat.zero_le 1, by decide, edit_failure_stops_emission_loop cenv3 ud0 0 1 (Nat.zero_le 1) (by decide)⟩
theorem shape_getLast (mid : List Event) (f : Event) :
    (Event.initProgressMsg :: (mid ++ [f])).getLast? = some f := by
  rw [show Event.initProgressMsg :: (mid ++ [f]) = (Event.initProgressMsg :: mid) ++ [f]
    from by simp]
  exact List.getLast?_concat _

theorem shape_countP_zero (mid : List Event) (f : Event) (p : Event → Bool)
    (hm : ∀ e ∈ mid, midOk e = true) (hmp : ∀ e, midOk e = true → p e = false)
    (hi : p Event.initProgressMsg = false) (hf : p f = false) :
    (Event.initProgressMsg :: (mid ++ [f])).countP p = 0 := by
  apply countP_zero
  intro e he
  rcases List.mem_cons.1 he with he | he
  · rw [he]; exact hi
  · rcases List.mem_append.1 he with he | he
    · exact hmp e (hm e he)
    · rw [List.mem_singleton.1 he]; exact hf

/-- C4: a 2xx response whose declared content type is not an image type
(its lowered Content-Type header does not contain "image/") is reported to
the user as the unexpected-content message carrying the 500-character
prefix of the decoded body — not as a success — and no document is sent. -/
theorem non_image_2xx_unexpected_content (env : Env) (ud : UserData) (r : Resp)
    (h1 : ud.waiting_for_image = some true) (h2 : env.initReplyOk = true)
    (h3 : env.fetchOk = true) (h4 : env.api = ApiResult.ok r)
    (h5 : 200 ≤ r.statusCode ∧ r.statusCode < 300)
    (h6 : strContains (respCT r) "image/" = false) :
    (∃ b, (handle_photo env ud).events.getLast? =
      some (Event.unexpectedContentMsg b (unexpectedText r))) ∧
    unexpectedText r =
      "Sorry, remove.bg returned an unexpected response. It might be an error: " ++
        strTake r.text 500 ∧
    (handle_photo env ud).events.countP isSendDocEvent = 0 := by
  have hs : ¬ (400 ≤ r.statusCode ∧ r.statusCode < 600) := by omega
  rw [handle_photo_armed env ud h1, processArmed_unexpected env r h2 h3 h4 hs h6]
  refine ⟨⟨aliveAfterApiEdit env, shape_getLast _ _⟩, rfl, ?_⟩
  exact shape_countP_zero _ _ _ (midBase_midOk env)
    (fun e he => (midOk_props e he).2.2.1) rfl rfl

/-- C4 witness: the concrete oracle whose API answer is 200 with
Content-Type text/plain. -/
theorem non_image_2xx_unexpected_content_witness :
    (200 ≤ respPlain.statusCode ∧ respPlain.statusCode < 300) ∧
    strContains (respCT respPlain) "image/" = false ∧
    (∃ b, (handle_photo env4 ud0).events.getLast? =
      some (Event.unexpectedContentMsg b (unexpectedText respPlain))) ∧
    (handle_photo env4 ud0).events.countP isSendDocEvent = 0 :=
  ⟨by decide, by decide,
   (non_image_2xx_unexpected_content env4 ud0 respPlain rfl rfl rfl rfl
     (by decide) (by decide)).1,
   (non_image_2xx_unexpected_content env4 ud0 respPlain rfl rfl rfl rfl
     (by decide) (by decide)).2.2⟩

/-- C5 counterexample: a 300-status text/plain response is not 2xx, yet it
is not classified as an API error: `raise_for_status` raises only for
statuses 400-599, so the response flows into the content-type check and is
reported as unexpected content; no API-error message occurs in the trace. -/
theorem non2xx_not_always_api_error_counterexample :
    resp300.statusCode = 300 ∧
    ¬ (200 ≤ resp300.statusCode ∧ resp300.statusCode < 300) ∧
    cenv5.api = ApiResult.ok resp300 ∧
    (handle_photo cenv5 ud0).events.countP isApiErrorEvent = 0 ∧
    (handle_photo cenv5 ud0).events.getLast? =
      some (Event.unexpectedContentMsg true (unexpectedText resp300)) := by decide

/-- C5 (amended): every response with status in 400-599 — the statuses
`raise_for_status` turns into `HTTPError`, rather than every non-2xx
status, see the counterexample — is classified as an API error: the
terminal message is the API-error text, which contains the parsed title and
detail when the JSON error body provides them, and falls back to the
200-character prefix of the raw body text when the body is not JSON. -/
theorem http_4xx_5xx_api_error (env : Env) (ud : UserData) (r : Resp)
    (h1 : ud.waiting_for_image = some true) (h2 : env.initReplyOk = true)
    (h3 : env.fetchOk = true) (h4 : env.api = ApiResult.ok r)
    (h5 : 400 ≤ r.statusCode ∧ r.statusCode < 600) :
    (∃ b, (handle_photo env ud).events.getLast? =
      some (Event.apiErrorMsg b (apiErrorText r))) ∧
    (∀ t d rest, r.jsonErrors = some ({ title := some t, detail := some d } :: rest) →
      containsStr (apiErrorText r) t ∧ containsStr (apiErrorText r) d) ∧
    (r.jsonErrors = none →
      apiErrorText r = "API Error (" ++ toString r.statusCode ++ "): " ++ strTake r.text 200) := by
  rw [handle_photo_armed env ud h1, processArmed_apiError env r h2 h3 h4 h5]
  refine ⟨⟨aliveAfterApiEdit env, shape_getLast _ _⟩, ?_, ?_⟩
  · intro t d rest hjson
    have he : apiErrorText r =
        ("API Error (" ++ toString r.statusCode ++ "): ") ++ (t ++ (" - " ++ d)) := by
      simp [apiErrorText, hjson]
    constructor
    · exact ⟨"API Error (" ++ toString r.statusCode ++ "): ", " - " ++ d,
        by rw [he]; simp [String.append_assoc]⟩
    · exact ⟨"API Error (" ++ toString r.statusCode ++ "): " ++ t ++ " - ", "",
        by rw [he]; simp [String.append_assoc]⟩
  · intro hjson
    simp [apiErrorText, hjson]

/-- C5 witness: the structured 400 "Insufficient credits" body of the
specification example; the terminal message contains both the title and the
detail. -/
theorem http_4xx_5xx_api_error_witness :
    (400 ≤ resp400.statusCode ∧ resp400.statusCode < 600) ∧
    (∃ b, (handle_photo env5 ud0).events.getLast? =
      some (Event.apiErrorMsg b (apiErrorText resp400))) ∧
    containsStr (apiErrorText resp400) "Insufficient credits" ∧
    containsStr (apiErrorText resp400) "no credits left" :=
  ⟨by decide,
   (http_4xx_5xx_api_error env5 ud0 resp400 rfl rfl rfl rfl (by decide)).1,
   ((http_4xx_5xx_api_error env5 ud0 resp400 rfl rfl rfl rfl (by decide)).2.1
     "Insufficient credits" "no credits left" [] rfl).1,
   ((http_4xx_5xx_api_error env5 ud0 resp400 rfl rfl rfl rfl (by decide)).2.1
     "Insufficient credits" "no credits left" [] rfl).2⟩

/-- C6: a processing call that exceeds the timeout budget yields exactly
the timeout message: the terminal event is the timeout message, whose text
differs from the generic internal-error and transport-error texts, and no
generic-error, API-error or transport-error message occurs anywhere in the
trace. -/
theorem timeout_yields_timeout_message (env : Env) (ud : UserData)
    (h1 : ud.waiting_for_image = some true) (h2 : env.initReplyOk = true)
    (h3 : env.fetchOk = true) (h4 : env.api = ApiResult.timeout) :
    (∃ b, (handle_photo env ud).events.getLast? = some (Event.timeoutMsg b) ∧
      msgText (Event.timeoutMsg b) = some timeoutText) ∧
    (handle_photo env ud).events.countP isGenericErrorEvent = 0 ∧
    (handle_photo env ud).events.countP isApiErrorEvent = 0 ∧
    (handle_photo env ud).events.countP isConnErrorEvent = 0 ∧
    timeoutText ≠ genericErrorText ∧ timeoutText ≠ connErrorText := by
  rw [handle_photo_armed env ud h1, processArmed_timeout env h2 h3 h4]
  refine ⟨⟨aliveAfterApiEdit env, shape_getLast _ _, rfl⟩, ?_, ?_, ?_, by decide, by decide⟩
  · exact shape_countP_zero _ _ _ (midBase_midOk env)
      (fun e he => (midOk_props e he).2.2.2.2.2.1) rfl rfl
  · exact shape_countP_zero _ _ _ (midBase_midOk env)
      (fun e he => (midOk_props e he).2.2.2.1) rfl rfl
  · exact shape_countP_zero _ _ _ (midBase_midOk env)
      (fun e he => (midOk_props e he).2.2.2.2.1) rfl rfl

/-- C6 witness: the concrete timing-out oracle. -/
theorem timeout_yields_timeout_message_witness :
    env6.api = ApiResult.timeout ∧
    (∃ b, (handle_photo env6 ud0).events.getLast? = some (Event.timeoutMsg b) ∧
      msgText (Event.timeoutMsg b) = some timeoutText) ∧
    timeoutText ≠ genericErrorText :=
  ⟨rfl, (timeout_yields_timeout_message env6 ud0 rfl rfl rfl rfl).1,
   (timeout_yields_timeout_message env6 ud0 rfl rfl rfl rfl).2.2.2.2.1⟩
theorem finishSuccess_sendOk (env : Env) (r : Resp) (filename : String)
    (h8 : env.sendDocOk = true) :
    finishSuccess env r filename =
      { userData := ⟨some false⟩,
        events := Event.initProgressMsg ::
          (midSuccess env ++ [Event.sendDocumentMsg filename r.content]),
        raised := false } := by
  simp [finishSuccess, h8]

/-- C7: an image arriving while the requester is not armed (key absent,
stored `False`, or any value other than `True`) is rejected with the
arm-first prompt; the per-user state is unchanged, no download and no API
call occur, and a second delivery — under any oracle — behaves
identically. -/
theorem unarmed_photo_rejected (env env2 : Env) (ud : UserData)
    (h : ud.waiting_for_image ≠ some true) :
    handle_photo env ud =
      { userData := ud, events := [Event.notArmedPromptMsg], raised := false } ∧
    Event.getFileCall ∉ (handle_photo env ud).events ∧
    Event.apiPostCall ∉ (handle_photo env ud).events ∧
    handle_photo env2 (handle_photo env ud).userData =
      { userData := ud, events := [Event.notArmedPromptMsg], raised := false } := by
  have e1 := handle_photo_unarmed env ud h
  refine ⟨e1, ?_, ?_, ?_⟩
  · rw [e1]; simp
  · rw [e1]; simp
  · rw [e1]
    exact handle_photo_unarmed env2 ud h

/-- C7 witness: the state left by `/start` (key absent). -/
theorem unarmed_photo_rejected_witness :
    udIdle.waiting_for_image ≠ some true ∧
    handle_photo envOk udIdle =
      { userData := udIdle, events := [Event.notArmedPromptMsg], raised := false } ∧
    Event.getFileCall ∉ (handle_photo envOk udIdle).events :=
  ⟨by decide, (unarmed_photo_rejected envOk envOk udIdle (by decide)).1,
   (unarmed_photo_rejected envOk envOk udIdle (by decide)).2.1⟩

/-- C8: a 2xx response whose lowered content type contains "image/" but not
"image/png" is still treated as success: the returned bytes are delivered
to the user as a document whose filename carries the extension taken from
the returned content type, and no error message occurs in the trace. -/
theorem alt_image_type_success_document (env : Env) (ud : UserData) (r : Resp)
    (h1 : ud.waiting_for_image = some true) (h2 : env.initReplyOk = true)
    (h3 : env.fetchOk = true) (h4 : env.api = ApiResult.ok r)
    (h5 : 200 ≤ r.statusCode ∧ r.statusCode < 300)
    (h6 : strContains (respCT r) "image/" = true)
    (h7 : strContains (respCT r) "image/png" = false)
    (h8 : env.sendDocOk = true) :
    (handle_photo env ud).events.getLast? =
      some (Event.sendDocumentMsg ("bg_removed_output." ++ extOf (respCT r)) r.content) ∧
    (handle_photo env ud).events.countP isErrorMessageEvent = 0 := by
  have hs : ¬ (400 ≤ r.statusCode ∧ r.statusCode < 600) := by omega
  rw [handle_photo_armed env ud h1, processArmed_altSuccess env r h2 h3 h4 hs h7 h6,
    finishSuccess_sendOk env r _ h8]
  refine ⟨shape_getLast _ _, ?_⟩
  exact shape_countP_zero _ _ _ (midSuccess_midOk env)
    (fun e he => (midOk_props e he).2.2.2.2.2.2.2.1) rfl rfl

/-- C8 witness: the 200 image/jpeg oracle; the delivered filename extension
is "jpeg". -/
theorem alt_image_type_success_document_witness :
    strContains (respCT respJpeg) "image/" = true ∧
    strContains (respCT respJpeg) "image/png" = false ∧
    extOf (respCT respJpeg) = "jpeg" ∧
    (handle_photo env8 ud0).events.getLast? =
      some (Event.sendDocumentMsg ("bg_removed_output." ++ extOf (respCT respJpeg))
        respJpeg.content) :=
  ⟨by decide, by decide, by decide,
   (alt_image_type_success_document env8 ud0 respJpeg rfl rfl rfl rfl (by decide)
     (by decide) (by decide) rfl).1⟩

/-- C9: when the initial progress reply raises for an armed requester (and
the apology reply succeeds), the handler sends the apology reply, sets the
armed flag to `False`, and returns: the trace is exactly the apology
message, so no image download and no external processing call occur. -/
theorem init_message_failure_aborts (env : Env) (ud : UserData)
    (h1 : ud.waiting_for_image = some true) (h2 : env.initReplyOk = false)
    (h3 : env.apologyOk = true) :
    handle_photo env ud =
      { userData := ⟨some false⟩, events := [Event.apologyMsg], raised := false } ∧
    Event.getFileCall ∉ (handle_photo env ud).events ∧
    Event.apiPostCall ∉ (handle_photo env ud).events := by
  have e1 := (handle_photo_armed env ud h1).trans (processArmed_initFail env h2 h3)
  refine ⟨e1, ?_, ?_⟩ <;> rw [e1] <;> simp

/-- C9 witness: the concrete failing-initial-reply oracle. -/
theorem init_message_failure_aborts_witness :
    env9.initReplyOk = false ∧ env9.apologyOk = true ∧
    handle_photo env9 ud0 =
      { userData := ⟨some false⟩, events := [Event.apologyMsg], raised := false } :=
  ⟨rfl, rfl, (init_message_failure_aborts env9 ud0 rfl rfl rfl).1⟩

/-- C10: `/start` and `/help` each pop the armed key, leaving the requester
not armed, so an image arriving right after either command is rejected with
the arm-first prompt, until the user arms again via the button (which sets
the flag back to `True`). -/
theorem start_help_disarm (env : Env) (ud : UserData) :
    (start ud).1.waiting_for_image = none ∧
    (help_command ud).1.waiting_for_image = none ∧
    handle_photo env (start ud).1 =
      { userData := (start ud).1, events := [Event.notArmedPromptMsg], raised := false } ∧
    handle_photo env (help_command ud).1 =
      { userData := (help_command ud).1, events := [Event.notArmedPromptMsg],
        raised := false } ∧
    (handle_remove_bg_button_press ud).1.waiting_for_image = some true := by
  refine ⟨rfl, rfl, ?_, ?_, rfl⟩
  · exact handle_photo_unarmed env _ (by simp [start])
  · exact handle_photo_unarmed env _ (by simp [help_command])

end BgBot
